import Mathlib

/-!
Shallow embedding of the AWS secret engine credential-issuance file
(package aws: genUsername, getFederationToken, getSessionToken, assumeRole,
readConfig, secretAccessKeysCreate, secretAccessKeysRenew,
secretAccessKeysRevoke, normalizeDisplayName, convertPolicyARNs).
External collaborators (template engine, storage, IAM/STS clients, WAL
framework, lease reader, rollback) are modelled as oracle fields of an
environment record; every provider interaction is logged as an event so
that call-order and no-call properties can be stated.
Go byte-length of a string is modelled by String.utf8ByteSize.
-/

namespace AWSSecret

/-- Transient template input, source struct UsernameMetadata. -/
structure UsernameMetadata where
  Type' : String
  DisplayName : String
  PolicyName : String
  deriving DecidableEq, Repr

/-- Character class of the source regex, letters, digits and the set +=,.@_- . -/
def allowedDisplayChar (c : Char) : Bool :=
  (('a' ≤ c) && (c ≤ 'z')) || (('A' ≤ c) && (c ≤ 'Z')) || (('0' ≤ c) && (c ≤ '9')) ||
  c == '+' || c == '=' || c == ',' || c == '.' || c == '@' || c == '_' || c == '-'

/-- Source normalizeDisplayName: every character outside the class is replaced by an underscore. -/
def normalizeDisplayName (displayName : String) : String :=
  ⟨displayName.data.map (fun c => if allowedDisplayChar c then c else '_')⟩

/-- Structured form of the three error strings genUsername can produce. -/
inductive GenErr where
  | templateInit (e : String)
  | generateFailed (e : String)
  | usernameTooLong (limit : Nat)
  deriving DecidableEq, Repr

/-- Template engine oracle: parsing a template string yields a generate
function from metadata to a rendered name, either step may fail. -/
def Engine : Type := String → Except String (UsernameMetadata → Except String String)

/-- Source genUsername: switch on userType with cases iam_user and
assume_role (cap 64, metadata Type IAM with normalized names), case sts
(cap 32, metadata Type STS), and no default case, so any other userType
falls through to the named return values, the empty string and no error. -/
def genUsername (engine : Engine)
    (displayName policyName userType usernameTemplate : String) : Except GenErr String :=
  match userType with
  | "iam_user" | "assume_role" =>
    match engine usernameTemplate with
    | .error e => .error (.templateInit e)
    | .ok generate =>
      match generate ⟨"IAM", normalizeDisplayName displayName, normalizeDisplayName policyName⟩ with
      | .error e => .error (.generateFailed e)
      | .ok ret =>
        if ret.utf8ByteSize > 64 then .error (.usernameTooLong 64) else .ok ret
  | "sts" =>
    match engine usernameTemplate with
    | .error e => .error (.templateInit e)
    | .ok generate =>
      match generate ⟨"STS", "", ""⟩ with
      | .error e => .error (.generateFailed e)
      | .ok ret =>
        if ret.utf8ByteSize > 32 then .error (.usernameTooLong 32) else .ok ret
  | _ => .ok ""

/-- Root configuration, only the username template field is read by this file. -/
structure RootConfig where
  UsernameTemplate : String
  deriving DecidableEq, Repr

/-- Lease configuration record, durations modelled as integers. -/
structure ConfigLease where
  Lease : Int
  LeaseMax : Int
  deriving DecidableEq, Repr

/-- Fields of awsRoleEntry consumed by the durable-user path.
IAMTags is an association list standing for the Go map. -/
structure RoleEntry where
  UserPath : String
  PermissionsBoundaryARN : String
  PolicyArns : List String
  PolicyDocument : String
  IAMGroups : List String
  IAMTags : List (String × String)
  deriving DecidableEq, Repr

/-- Credentials block of an STS response; Expiration is an absolute
timestamp in seconds. -/
structure Credentials where
  AccessKeyId : String
  SecretAccessKey : String
  SessionToken : String
  Expiration : Int
  deriving DecidableEq, Repr

/-- Access key pair returned by CreateAccessKey. -/
structure AccessKey where
  AccessKeyId : String
  SecretAccessKey : String
  deriving DecidableEq, Repr

/-- Input of the CreateUser provider call; optional fields are set only
when the corresponding role fields are nonempty. -/
structure CreateUserInput where
  UserName : String
  Path : String
  PermissionsBoundary : Option String
  deriving DecidableEq, Repr

/-- Input of the GetFederationToken provider call; Policy and PolicyArns
are set only when nonempty, mirroring the source conditionals. -/
structure GetFederationTokenInput where
  Name : String
  DurationSeconds : Int
  Policy : Option String
  PolicyArns : Option (List String)
  deriving DecidableEq, Repr

/-- Input of the GetSessionToken provider call. -/
structure GetSessionTokenInput where
  DurationSeconds : Int
  SerialNumber : Option String
  TokenCode : Option String
  deriving DecidableEq, Repr

/-- Input of the AssumeRole provider call. -/
structure AssumeRoleInput where
  RoleSessionName : String
  RoleArn : String
  DurationSeconds : Int
  Policy : Option String
  PolicyArns : Option (List String)
  deriving DecidableEq, Repr

/-- Values stored in a Secret's internal data map. The untyped Go map
holds booleans, strings, a role record, or anything else. -/
inductive IValue where
  | bool (b : Bool)
  | str (s : String)
  | role (r : RoleEntry)
  | other
  deriving DecidableEq, Repr

/-- Values stored in a Secret's public data map. -/
inductive DVal where
  | s (v : String)
  | n (v : Int)
  | null
  deriving DecidableEq, Repr

/-- Structured Go error values as produced by this file: plain messages,
single wrapping, the errwrap pairing of two errors, and username
generation errors. -/
inductive GoErr where
  | msg (s : String)
  | wrapf (pre : String) (inner : GoErr)
  | wrapPair (outer inner : GoErr)
  | gen (g : GenErr)
  deriving DecidableEq, Repr

/-- Shallow model of a framework Secret inside a logical.Response. -/
structure SecretPart where
  data : List (String × DVal)
  internalData : List (String × IValue)
  TTL : Int
  MaxTTL : Int
  Renewable : Bool
  deriving DecidableEq, Repr

/-- Result of a handler, separating the Go response and error channels:
an ok response carrying a secret, a logical.ErrorResponse with nil error,
a logical.ErrorResponse paired with a CheckAWSError-wrapped raw error, a
nil response with a fatal error, and the nil-nil no-op. -/
inductive HandlerResult where
  | ok (r : SecretPart)
  | respErr (m : String)
  | respErrAws (m : String) (raw : String)
  | fatal (e : GoErr)
  | noop
  deriving DecidableEq, Repr

/-- Events logged for every collaborator interaction, carrying the exact
call inputs. -/
inductive Ev where
  | clientIAM
  | clientSTS
  | groupPoliciesRead (groups : List String)
  | putWAL (user : String)
  | deleteWAL (id : String)
  | createUser (req : CreateUserInput)
  | attachPolicy (user arn : String)
  | putUserPolicy (user policyName doc : String)
  | addToGroup (user group : String)
  | tagUser (user : String) (tags : List (String × String))
  | createAccessKey (user : String)
  | leaseRead
  | stsGetFederationToken (inp : GetFederationTokenInput)
  | stsGetSessionToken (inp : GetSessionTokenInput)
  | stsAssumeRole (inp : AssumeRoleInput)
  | userRollback (user : String)
  deriving DecidableEq, Repr

/-- Outcome of an issuance or lease operation: the event trace and the
handler result. -/
structure Outcome where
  events : List Ev
  result : HandlerResult
  deriving DecidableEq, Repr

/-- Outcome of the durable-user creation, additionally recording whether a
WAL entry written by this invocation is still present at the end. -/
structure CreateOutcome where
  events : List Ev
  walPending : Bool
  result : HandlerResult
  deriving DecidableEq, Repr

/-- Stored entry for the root configuration; decoding happens outside this
file, so it is modelled as the decode outcome. -/
structure StorageEntry where
  decodeRootConfig : Except String RootConfig

/-- Environment of oracles standing for the external collaborators used by
this file: the template package, storage, the IAM and STS clients, the WAL
framework, the lease reader and the user rollback machinery.  The field
now is the issuance time used by time.Until. -/
structure Env where
  engine : Engine
  clientIAM : Except String Unit
  clientSTS : Except String Unit
  storageGet : String → Except String (Option StorageEntry)
  getGroupPolicies : List String → Except String (Option (List String) × List String)
  combinePolicyDocuments : List String → Except String String
  stsGetFederationToken : GetFederationTokenInput → Except String Credentials
  stsGetSessionToken : GetSessionTokenInput → Except String Credentials
  stsAssumeRole : AssumeRoleInput → Except String (Credentials × String)
  putWAL : String → Except String String
  deleteWAL : String → Except String Unit
  createUser : CreateUserInput → Except String Unit
  attachUserPolicy : String → String → Except String Unit
  putUserPolicy : String → String → String → Except String Unit
  addUserToGroup : String → String → Except String Unit
  tagUser : String → List (String × String) → Except String Unit
  createAccessKey : String → Except String AccessKey
  lease : Except String (Option ConfigLease)
  pathUserRollback : String → Except String Unit
  now : Int

/-- Storage key of the root configuration, source constant storageKey. -/
def storageKey : String := "config/root"

/-- Default username template constant; its value lives outside the
included sources and no verified property depends on it. -/
def defaultUserNameTemplate : String := "defaultUserNameTemplate"

/-- Lookup in an internal-data association list. -/
def lookupI (k : String) : List (String × IValue) → Option IValue
  | [] => none
  | (k₀, v) :: rest => if k₀ = k then some v else lookupI k rest

/-- Source readConfig, taking the storage collaborator: a storage read
failure or a decode failure is an error, an absent entry yields the zero
configuration. -/
def readConfig (storage : String → Except String (Option StorageEntry)) :
    Except String RootConfig :=
  match storage storageKey with
  | .error e => .error e
  | .ok none => .ok { UsernameTemplate := "" }
  | .ok (some entry) =>
    match entry.decodeRootConfig with
    | .error e => .error e
    | .ok c => .ok c

/-- Template selection shared by the strategies: the configured template,
or the package default when the configuration holds the empty string. -/
def effTemplate (config : RootConfig) : String :=
  if config.UsernameTemplate = "" then defaultUserNameTemplate else config.UsernameTemplate

/-- Response constructor of the framework Secret: zero lease fields and
renewable true by default because a Renew handler is registered for this
secret type. -/
def mkResponse (data : List (String × DVal)) (internal : List (String × IValue)) : SecretPart :=
  { data := data, internalData := internal, TTL := 0, MaxTTL := 0, Renewable := true }

/-- Unsigned 64-bit cast applied to a whole-second duration when it is
placed in the public data map. -/
def uint64Seconds (d : Int) : Int := d % ((2 : Int) ^ 64)

/-- Federation-token input builder: the policy document and the ARN list
are set only when nonempty. -/
def mkFedTokenInput (username policy : String) (policyARNs : List String)
    (lifeTimeInSeconds : Int) : GetFederationTokenInput :=
  { Name := username
    DurationSeconds := lifeTimeInSeconds
    Policy := if policy ≠ "" then some policy else none
    PolicyArns := if policyARNs.length > 0 then some policyARNs else none }

/-- Session-token input builder: the serial number and the MFA code are
set only when nonempty. -/
def mkSessionTokenInput (serialNumber mfaCode : String)
    (lifeTimeInSeconds : Int) : GetSessionTokenInput :=
  { DurationSeconds := lifeTimeInSeconds
    SerialNumber := if serialNumber ≠ "" then some serialNumber else none
    TokenCode := if mfaCode ≠ "" then some mfaCode else none }

/-- Assume-role input builder: the policy document and the ARN list are
set only when nonempty. -/
def mkAssumeRoleInput (roleSessionName roleArn policy : String)
    (policyARNs : List String) (lifeTimeInSeconds : Int) : AssumeRoleInput :=
  { RoleSessionName := roleSessionName
    RoleArn := roleArn
    DurationSeconds := lifeTimeInSeconds
    Policy := if policy ≠ "" then some policy else none
    PolicyArns := if policyARNs.length > 0 then some policyARNs else none }

/-- Policy merge of getFederationToken: the role policy is appended to the
group documents and combined whenever the group-policy slice is non-nil,
even when it is empty. -/
def mergedPolicyFed (env : Env) (gp : Option (List String)) (policy : String) :
    Except String String :=
  match gp with
  | none => .ok policy
  | some gps => env.combinePolicyDocuments (gps ++ [policy])

/-- Policy merge of assumeRole: combination happens only when the
group-policy slice has positive length. -/
def mergedPolicyAssume (env : Env) (gp : Option (List String)) (policy : String) :
    Except String String :=
  if (gp.getD []).length > 0 then env.combinePolicyDocuments ((gp.getD []) ++ [policy])
  else .ok policy

/-- ARN merge shared by both paths: group ARNs are appended when any
exist. -/
def mergedARNs (policyARNs gpARNs : List String) : List String :=
  if gpARNs.length > 0 then policyARNs ++ gpARNs else policyARNs

/-- Source getFederationToken: merge group policies, build the token
input, fail closed when neither a policy document nor a policy ARN is
present, otherwise call GetFederationToken and package the credentials as
a non-renewable Secret whose TTL is the reported expiration minus the
issuance time. -/
def getFederationToken (env : Env) (displayName policyName policy₀ : String)
    (policyARNs₀ iamGroups : List String) (lifeTimeInSeconds : Int) : Outcome :=
  match env.getGroupPolicies iamGroups with
  | .error e => ⟨[.groupPoliciesRead iamGroups], .respErr e⟩
  | .ok (gp, gpARNs) =>
    match mergedPolicyFed env gp policy₀ with
    | .error e => ⟨[.groupPoliciesRead iamGroups], .respErr e⟩
    | .ok policy =>
      let policyARNs := mergedARNs policyARNs₀ gpARNs
      match env.clientSTS with
      | .error e => ⟨[.groupPoliciesRead iamGroups, .clientSTS], .respErr e⟩
      | .ok _ =>
        match readConfig env.storageGet with
        | .error e =>
          ⟨[.groupPoliciesRead iamGroups, .clientSTS],
           .fatal (.wrapf "unable to read configuration" (.msg e))⟩
        | .ok config =>
          match genUsername env.engine displayName policyName "sts" (effTemplate config) with
          | .error ge => ⟨[.groupPoliciesRead iamGroups, .clientSTS], .fatal (.gen ge)⟩
          | .ok username =>
            let getTokenInput := mkFedTokenInput username policy policyARNs lifeTimeInSeconds
            if policy = "" ∧ policyARNs = [] then
              ⟨[.groupPoliciesRead iamGroups, .clientSTS],
               .respErr "must specify at least one of policy_arns or policy_document with federation_token credential_type"⟩
            else
              match env.stsGetFederationToken getTokenInput with
              | .error e =>
                ⟨[.groupPoliciesRead iamGroups, .clientSTS, .stsGetFederationToken getTokenInput],
                 .respErrAws ("Error generating STS keys: " ++ e) e⟩
              | .ok creds =>
                let ttl := creds.Expiration - env.now
                let resp := mkResponse
                  [("access_key", .s creds.AccessKeyId),
                   ("secret_key", .s creds.SecretAccessKey),
                   ("security_token", .s creds.SessionToken),
                   ("session_token", .s creds.SessionToken),
                   ("ttl", .n (uint64Seconds ttl))]
                  [("username", .str username), ("policy", .str policy), ("is_sts", .bool true)]
                ⟨[.groupPoliciesRead iamGroups, .clientSTS, .stsGetFederationToken getTokenInput],
                 .ok { resp with TTL := ttl, Renewable := false }⟩

/-- Source getSessionToken: build the input with the serial number and MFA
code only when nonempty, call GetSessionToken and package the credentials
as a non-renewable Secret whose TTL is the reported expiration minus the
issuance time. -/
def getSessionToken (env : Env) (serialNumber mfaCode : String)
    (lifeTimeInSeconds : Int) : Outcome :=
  match env.clientSTS with
  | .error e => ⟨[.clientSTS], .respErr e⟩
  | .ok _ =>
    let getTokenInput := mkSessionTokenInput serialNumber mfaCode lifeTimeInSeconds
    match env.stsGetSessionToken getTokenInput with
    | .error e =>
      ⟨[.clientSTS, .stsGetSessionToken getTokenInput],
       .respErrAws ("Error generating STS keys: " ++ e) e⟩
    | .ok creds =>
      let ttl := creds.Expiration - env.now
      let resp := mkResponse
        [("access_key", .s creds.AccessKeyId),
         ("secret_key", .s creds.SecretAccessKey),
         ("session_token", .s creds.SessionToken),
         ("ttl", .n (uint64Seconds ttl))]
        [("is_sts", .bool true)]
      ⟨[.clientSTS, .stsGetSessionToken getTokenInput],
       .ok { resp with TTL := ttl, Renewable := false }⟩

/-- Source assumeRole: merge group policies, derive the role session name
from the username generator only when the caller supplied none (otherwise
only sanitize it), build the input with the policy document and ARNs only
when nonempty, call AssumeRole with no fail-closed policy check, and
package the credentials as a non-renewable Secret whose TTL is the
reported expiration minus the issuance time. -/
def assumeRole (env : Env) (displayName roleName roleArn policy₀ : String)
    (policyARNs₀ iamGroups : List String) (lifeTimeInSeconds : Int)
    (roleSessionName₀ : String) : Outcome :=
  match env.getGroupPolicies iamGroups with
  | .error e => ⟨[.groupPoliciesRead iamGroups], .respErr e⟩
  | .ok (gp, gpARNs) =>
    match mergedPolicyAssume env gp policy₀ with
    | .error e => ⟨[.groupPoliciesRead iamGroups], .respErr e⟩
    | .ok policy =>
      let policyARNs := mergedARNs policyARNs₀ gpARNs
      match env.clientSTS with
      | .error e => ⟨[.groupPoliciesRead iamGroups, .clientSTS], .respErr e⟩
      | .ok _ =>
        match readConfig env.storageGet with
        | .error e =>
          ⟨[.groupPoliciesRead iamGroups, .clientSTS],
           .fatal (.wrapf "unable to read configuration" (.msg e))⟩
        | .ok config =>
          match (if roleSessionName₀ = "" then
                   genUsername env.engine displayName roleName "assume_role" (effTemplate config)
                 else .ok (normalizeDisplayName roleSessionName₀)) with
          | .error ge => ⟨[.groupPoliciesRead iamGroups, .clientSTS], .fatal (.gen ge)⟩
          | .ok roleSessionName =>
            let assumeRoleInput := mkAssumeRoleInput roleSessionName roleArn policy
              policyARNs lifeTimeInSeconds
            match env.stsAssumeRole assumeRoleInput with
            | .error e =>
              ⟨[.groupPoliciesRead iamGroups, .clientSTS, .stsAssumeRole assumeRoleInput],
               .respErrAws ("Error assuming role: " ++ e) e⟩
            | .ok (creds, assumedArn) =>
              let ttl := creds.Expiration - env.now
              let resp := mkResponse
                [("access_key", .s creds.AccessKeyId),
                 ("secret_key", .s creds.SecretAccessKey),
                 ("security_token", .s creds.SessionToken),
                 ("session_token", .s creds.SessionToken),
                 ("arn", .s assumedArn),
                 ("ttl", .n (uint64Seconds ttl))]
                [("username", .str roleSessionName), ("policy", .str roleArn),
                 ("is_sts", .bool true)]
              ⟨[.groupPoliciesRead iamGroups, .clientSTS, .stsAssumeRole assumeRoleInput],
               .ok { resp with TTL := ttl, Renewable := false }⟩

/-- Loop attaching each policy ARN to the user; an attachment failure
stops the loop with the formatted message and the raw provider error. -/
def attachLoop (attach : String → String → Except String Unit) (username : String) :
    List String → List Ev × Option (String × String)
  | [] => ([], none)
  | arn :: rest =>
    match attach username arn with
    | .error e => ([.attachPolicy username arn], some ("Error attaching user policy: " ++ e, e))
    | .ok _ =>
      let (evs, r) := attachLoop attach username rest
      (.attachPolicy username arn :: evs, r)

/-- Loop adding the user to each IAM group; a failure stops the loop with
the formatted message and the raw provider error. -/
def groupLoop (addToGroup : String → String → Except String Unit) (username : String) :
    List String → List Ev × Option (String × String)
  | [] => ([], none)
  | g :: rest =>
    match addToGroup username g with
    | .error e => ([.addToGroup username g], some ("Error adding user to group: " ++ e, e))
    | .ok _ =>
      let (evs, r) := groupLoop addToGroup username rest
      (.addToGroup username g :: evs, r)

/-- Provisioning steps of the durable-user path after the principal
exists: attach every policy ARN, put the inline policy when the document
is nonempty, add the user to every group, tag when any tags exist, and
mint the access key.  A failure carries the formatted ErrorResponse
message and the raw provider error. -/
def provisionSteps (env : Env) (username policyName : String) (role : RoleEntry) :
    List Ev × Except (String × String) AccessKey :=
  match attachLoop env.attachUserPolicy username role.PolicyArns with
  | (evs, some err) => (evs, .error err)
  | (evs, none) =>
    match (if role.PolicyDocument ≠ "" then
             match env.putUserPolicy username policyName role.PolicyDocument with
             | .error e =>
               ([Ev.putUserPolicy username policyName role.PolicyDocument],
                some ("Error putting user policy: " ++ e, e))
             | .ok _ => ([Ev.putUserPolicy username policyName role.PolicyDocument], none)
           else ([], none)) with
    | (evs₁, some err) => (evs ++ evs₁, .error err)
    | (evs₁, none) =>
      match groupLoop env.addUserToGroup username role.IAMGroups with
      | (evs₂, some err) => (evs ++ evs₁ ++ evs₂, .error err)
      | (evs₂, none) =>
        match (if role.IAMTags.length > 0 then
                 match env.tagUser username role.IAMTags with
                 | .error e =>
                   ([Ev.tagUser username role.IAMTags],
                    some ("Error adding tags to user: " ++ e, e))
                 | .ok _ => ([Ev.tagUser username role.IAMTags], none)
               else ([], none)) with
        | (evs₃, some err) => (evs ++ evs₁ ++ evs₂ ++ evs₃, .error err)
        | (evs₃, none) =>
          match env.createAccessKey username with
          | .error e =>
            (evs ++ evs₁ ++ evs₂ ++ evs₃ ++ [Ev.createAccessKey username],
             .error ("Error creating access keys: " ++ e, e))
          | .ok keyResp =>
            (evs ++ evs₁ ++ evs₂ ++ evs₃ ++ [Ev.createAccessKey username], .ok keyResp)

/-- CreateUser input built by the durable-user path: the user path
defaults to the root path when unset and the permissions boundary is
honoured when set. -/
def mkCreateUserInput (username : String) (role : RoleEntry) : CreateUserInput :=
  { UserName := username
    Path := if role.UserPath = "" then "/" else role.UserPath
    PermissionsBoundary :=
      if role.PermissionsBoundaryARN ≠ "" then some role.PermissionsBoundaryARN else none }

/-- Lease substitution of the durable-user path: a read failure or an
absent configuration is replaced by the zero-value lease. -/
def effLease (env : Env) : ConfigLease :=
  match env.lease with
  | .ok (some l) => l
  | _ => { Lease := 0, LeaseMax := 0 }

/-- Source secretAccessKeysCreate: obtain the IAM client, read the
configuration, generate the username, write the WAL entry before any
mutating provider call, create the user (on failure delete the WAL entry
at once and return the creation error, wrapped with the deletion error if
deleting also fails), run the provisioning steps (their failures surface
with the WAL entry left pending), delete the WAL entry (a failure here is
fatal), and only then build the Secret with lease-configured TTLs, a
failed or absent lease read being silently replaced by a zero lease. -/
def secretAccessKeysCreate (env : Env) (displayName policyName : String)
    (role : RoleEntry) : CreateOutcome :=
  match env.clientIAM with
  | .error e => ⟨[.clientIAM], false, .respErr e⟩
  | .ok _ =>
    match readConfig env.storageGet with
    | .error e => ⟨[.clientIAM], false, .fatal (.wrapf "unable to read configuration" (.msg e))⟩
    | .ok config =>
      match genUsername env.engine displayName policyName "iam_user" (effTemplate config) with
      | .error ge => ⟨[.clientIAM], false, .fatal (.gen ge)⟩
      | .ok username =>
        match env.putWAL username with
        | .error e =>
          ⟨[.clientIAM, .putWAL username], false,
           .fatal (.wrapf "error writing WAL entry" (.msg e))⟩
        | .ok walID =>
          let req := mkCreateUserInput username role
          match env.createUser req with
          | .error e =>
            match env.deleteWAL walID with
            | .error we =>
              ⟨[.clientIAM, .putWAL username, .createUser req, .deleteWAL walID], true,
               .fatal (.wrapPair (.wrapf "failed to delete WAL entry" (.msg we))
                                 (.wrapf "error creating IAM user" (.msg e)))⟩
            | .ok _ =>
              ⟨[.clientIAM, .putWAL username, .createUser req, .deleteWAL walID], false,
               .respErrAws ("Error creating IAM user: " ++ e) e⟩
          | .ok _ =>
            match provisionSteps env username policyName role with
            | (pevs, .error (m, raw)) =>
              ⟨[.clientIAM, .putWAL username, .createUser req] ++ pevs, true, .respErrAws m raw⟩
            | (pevs, .ok keyResp) =>
              match env.deleteWAL walID with
              | .error e =>
                ⟨[.clientIAM, .putWAL username, .createUser req] ++ pevs ++ [.deleteWAL walID],
                 true, .fatal (.wrapf "failed to commit WAL entry" (.msg e))⟩
              | .ok _ =>
                let resp := mkResponse
                  [("access_key", .s keyResp.AccessKeyId),
                   ("secret_key", .s keyResp.SecretAccessKey),
                   ("session_token", .null)]
                  [("username", .str username), ("policy", .role role), ("is_sts", .bool false)]
                ⟨[.clientIAM, .putWAL username, .createUser req] ++ pevs ++
                   [.deleteWAL walID, .leaseRead],
                 false,
                 .ok { resp with TTL := (effLease env).Lease, MaxTTL := (effLease env).LeaseMax }⟩

/-- Source secretAccessKeysRenew: a Secret whose is_sts internal value is
the boolean true is a no-op; every other shape of is_sts, including a
malformed non-boolean value and an absent key, falls through to the
durable path, which reloads the lease configuration (a read failure
aborts, an absent configuration becomes the zero lease) and resets the
TTLs of the Secret. -/
def secretAccessKeysRenew (env : Env) (secret : SecretPart) : Outcome :=
  match lookupI "is_sts" secret.internalData with
  | some (.bool true) => ⟨[], .noop⟩
  | _ =>
    match env.lease with
    | .error e => ⟨[.leaseRead], .fatal (.msg e)⟩
    | .ok l =>
      let lease := l.getD { Lease := 0, LeaseMax := 0 }
      ⟨[.leaseRead], .ok { secret with TTL := lease.Lease, MaxTTL := lease.LeaseMax }⟩

/-- Durable branch of revoke: require the username string in internal
data and delegate principal deletion to pathUserRollback keyed by the
username alone. -/
def revokeUser (env : Env) (secret : SecretPart) : Outcome :=
  match lookupI "username" secret.internalData with
  | some (.str username) =>
    match env.pathUserRollback username with
    | .error e => ⟨[.userRollback username], .fatal (.msg e)⟩
    | .ok _ => ⟨[.userRollback username], .noop⟩
  | some _ => ⟨[], .fatal (.msg "secret is missing username internal data")⟩
  | none => ⟨[], .fatal (.msg "secret is missing username internal data")⟩

/-- Source secretAccessKeysRevoke: a Secret whose is_sts internal value is
the boolean true is a no-op; a present non-boolean is_sts is a distinct
terminal error; otherwise (boolean false or absent key) the username
internal field is required, its absence or a non-string value being a
terminal error, and principal deletion is delegated to the user rollback
machinery keyed by the username alone. -/
def secretAccessKeysRevoke (env : Env) (secret : SecretPart) : Outcome :=
  match lookupI "is_sts" secret.internalData with
  | some (.bool true) => ⟨[], .noop⟩
  | some (.bool false) => revokeUser env secret
  | some _ => ⟨[], .fatal (.msg "secret has is_sts but value could not be understood")⟩
  | none => revokeUser env secret

/-- Provider calls that mutate external identity state. -/
def mutating : Ev → Bool
  | .createUser _ => true
  | .attachPolicy _ _ => true
  | .putUserPolicy _ _ _ => true
  | .addToGroup _ _ => true
  | .tagUser _ _ => true
  | .createAccessKey _ => true
  | _ => false

/-- Scanning a trace from the start, no mutating provider call may occur
before the first WAL write; once the WAL write is seen the remainder is
unconstrained. -/
def walBeforeMutations : List Ev → Bool
  | [] => true
  | .putWAL _ :: _ => true
  | e :: rest => if mutating e then false else walBeforeMutations rest

/-- A result that surfaces an error to the caller on either channel. -/
def surfacedError : HandlerResult → Bool
  | .ok _ => false
  | .noop => false
  | _ => true

/-- A result that successfully returns a Secret. -/
def HandlerResult.isOk : HandlerResult → Bool
  | .ok _ => true
  | _ => false

/-- Whether an event is the federation-token provider call. -/
def isFedCall : Ev → Bool
  | .stsGetFederationToken _ => true
  | _ => false

/-- Whether an event is the assume-role provider call. -/
def isAssumeCall : Ev → Bool
  | .stsAssumeRole _ => true
  | _ => false

/-- Concrete environment in which every collaborator succeeds, used by the
witnesses and counterexamples. -/
def envOK : Env where
  engine := fun _ => .ok (fun um => .ok (um.Type' ++ "-u"))
  clientIAM := .ok ()
  clientSTS := .ok ()
  storageGet := fun _ => .ok none
  getGroupPolicies := fun _ => .ok (none, [])
  combinePolicyDocuments := fun docs => .ok (String.intercalate "+" docs)
  stsGetFederationToken := fun _ => .ok ⟨"AKIAF", "SKF", "TOKF", 900⟩
  stsGetSessionToken := fun _ => .ok ⟨"AKIAS", "SKS", "TOKS", 900⟩
  stsAssumeRole := fun _ => .ok (⟨"AKIAR", "SKR", "TOKR", 900⟩, "arn:assumed")
  putWAL := fun _ => .ok "wal-1"
  deleteWAL := fun _ => .ok ()
  createUser := fun _ => .ok ()
  attachUserPolicy := fun _ _ => .ok ()
  putUserPolicy := fun _ _ _ => .ok ()
  addUserToGroup := fun _ _ => .ok ()
  tagUser := fun _ _ => .ok ()
  createAccessKey := fun u => .ok ⟨"AKIA-" ++ u, "SK"⟩
  lease := .ok (some ⟨3600, 7200⟩)
  pathUserRollback := fun _ => .ok ()
  now := 100

/-- Role used by the witnesses: one policy ARN, an inline document, one
group and one tag. -/
def roleW : RoleEntry where
  UserPath := ""
  PermissionsBoundaryARN := ""
  PolicyArns := ["arn:aws:iam::aws:policy/ReadOnlyAccess"]
  PolicyDocument := "doc"
  IAMGroups := ["g1"]
  IAMTags := [("k", "v")]

/-- C9: username generation with a user type outside the set iam_user,
assume_role, sts returns the empty string with no error, for every
template engine, so no rendering, sanitization or length check can have
taken place. -/
theorem c9_unrecognized_user_type_yields_empty (engine : Engine)
    (displayName policyName userType usernameTemplate : String)
    (h1 : userType ≠ "iam_user") (h2 : userType ≠ "assume_role") (h3 : userType ≠ "sts") :
    genUsername engine displayName policyName userType usernameTemplate = .ok "" := by
  unfold genUsername
  split <;> simp_all

/-- C9 witness: the unrecognized type bogus yields the empty string. -/
theorem c9_witness :
    genUsername envOK.engine "disp" "pol" "bogus" "tmpl" = .ok "" :=
  c9_unrecognized_user_type_yields_empty envOK.engine "disp" "pol" "bogus" "tmpl"
    (by decide) (by decide) (by decide)

/-- C4: once the template parses, username generation for the iam_user and
assume_role kinds fails with the UsernameTooLong error exactly when the
rendered name exceeds 64 bytes and otherwise returns the rendered name
unchanged; for the sts kind the cap is 32; and generation is
deterministic. -/
theorem c4_username_length_caps (engine : Engine)
    (displayName policyName userType usernameTemplate : String)
    (generate : UsernameMetadata → Except String String) (name : String)
    (heng : engine usernameTemplate = .ok generate) :
    ((userType = "iam_user" ∨ userType = "assume_role") →
      generate ⟨"IAM", normalizeDisplayName displayName, normalizeDisplayName policyName⟩
          = .ok name →
      (name.utf8ByteSize > 64 →
        genUsername engine displayName policyName userType usernameTemplate =
          .error (.usernameTooLong 64)) ∧
      (¬ name.utf8ByteSize > 64 →
        genUsername engine displayName policyName userType usernameTemplate = .ok name))
    ∧ (userType = "sts" →
      generate ⟨"STS", "", ""⟩ = .ok name →
      (name.utf8ByteSize > 32 →
        genUsername engine displayName policyName userType usernameTemplate =
          .error (.usernameTooLong 32)) ∧
      (¬ name.utf8ByteSize > 32 →
        genUsername engine displayName policyName userType usernameTemplate = .ok name))
    ∧ (∀ r₁ r₂,
        genUsername engine displayName policyName userType usernameTemplate = .ok r₁ →
        genUsername engine displayName policyName userType usernameTemplate = .ok r₂ →
        r₁ = r₂) := by
  refine ⟨?_, ?_, ?_⟩
  · rintro (rfl | rfl) hgen <;>
      exact ⟨fun hlen => by simp [genUsername, heng, hgen, hlen],
             fun hlen => by simp [genUsername, heng, hgen, hlen]⟩
  · rintro rfl hgen
    exact ⟨fun hlen => by simp [genUsername, heng, hgen, hlen],
           fun hlen => by simp [genUsername, heng, hgen, hlen]⟩
  · intro r₁ r₂ h1 h2
    rw [h1] at h2
    exact (Except.ok.injEq _ _).mp h2

/-- C4 witness: with a concrete engine rendering the three-byte name IAM,
generation for the iam_user kind succeeds with exactly that name. -/
theorem c4_witness :
    genUsername envOK.engine "disp" "pol" "iam_user" "tmpl" = .ok "IAM-u" :=
  ((c4_username_length_caps envOK.engine "disp" "pol" "iam_user" "tmpl"
      (fun um => .ok (um.Type' ++ "-u")) "IAM-u" rfl).1
    (Or.inl rfl) rfl).2 (by decide)

/-- C5: revoke of a Secret whose is_sts internal value is the boolean true
is a no-op with no external call; on the durable shapes (is_sts absent or
boolean false) a missing or non-string username internal value is a
terminal error with no deletion attempted, and a present username string
delegates deletion to the user rollback machinery keyed by that username
alone, propagating its error. -/
theorem c5_revoke_dispatch (env : Env) (secret : SecretPart) :
    (lookupI "is_sts" secret.internalData = some (.bool true) →
      secretAccessKeysRevoke env secret = ⟨[], .noop⟩)
    ∧ ((lookupI "is_sts" secret.internalData = none ∨
        lookupI "is_sts" secret.internalData = some (.bool false)) →
      ((∀ u, lookupI "username" secret.internalData ≠ some (.str u)) →
        secretAccessKeysRevoke env secret =
          ⟨[], .fatal (.msg "secret is missing username internal data")⟩)
      ∧ (∀ u, lookupI "username" secret.internalData = some (.str u) →
          (env.pathUserRollback u = .ok () →
            secretAccessKeysRevoke env secret = ⟨[.userRollback u], .noop⟩)
          ∧ (∀ e, env.pathUserRollback u = .error e →
            secretAccessKeysRevoke env secret = ⟨[.userRollback u], .fatal (.msg e)⟩))) := by
  constructor
  · intro h
    simp [secretAccessKeysRevoke, h]
  · intro hsts
    have hbody : secretAccessKeysRevoke env secret = revokeUser env secret := by
      rcases hsts with h | h <;> simp [secretAccessKeysRevoke, h]
    constructor
    · intro hu
      rcases hx : lookupI "username" secret.internalData with _ | v
      · simp [hbody, revokeUser, hx]
      · cases v with
        | str s => exact absurd hx (hu s)
        | bool b => simp [hbody, revokeUser, hx]
        | role r => simp [hbody, revokeUser, hx]
        | other => simp [hbody, revokeUser, hx]
    · intro u hu
      refine ⟨fun hr => ?_, fun e hr => ?_⟩ <;> simp [hbody, revokeUser, hu, hr]

/-- C5 witness: an STS-marked Secret is revoked as a no-op with an empty
event trace. -/
theorem c5_witness :
    secretAccessKeysRevoke envOK
      { data := [], internalData := [("is_sts", .bool true)],
        TTL := 0, MaxTTL := 0, Renewable := false } = ⟨[], .noop⟩ :=
  (c5_revoke_dispatch envOK
    { data := [], internalData := [("is_sts", .bool true)],
      TTL := 0, MaxTTL := 0, Renewable := false }).1 rfl

/-- C6: renew of a Secret whose is_sts internal value is the boolean true
is a no-op with no external call, and for every other Secret renew reads
the lease configuration and resets the TTL and max-TTL of the Secret to
its values, an absent configuration standing for the zero lease. -/
theorem c6_renew_dispatch (env : Env) (secret : SecretPart) :
    (lookupI "is_sts" secret.internalData = some (.bool true) →
      secretAccessKeysRenew env secret = ⟨[], .noop⟩)
    ∧ (lookupI "is_sts" secret.internalData ≠ some (.bool true) →
      ∀ l, env.lease = .ok l →
        secretAccessKeysRenew env secret =
          ⟨[.leaseRead],
           .ok { secret with
                 TTL := (l.getD { Lease := 0, LeaseMax := 0 }).Lease,
                 MaxTTL := (l.getD { Lease := 0, LeaseMax := 0 }).LeaseMax }⟩) := by
  constructor
  · intro h
    simp [secretAccessKeysRenew, h]
  · intro h l hl
    rcases hx : lookupI "is_sts" secret.internalData with _ | v
    · simp [secretAccessKeysRenew, hx, hl]
    · cases v with
      | bool b =>
        cases b with
        | false => simp [secretAccessKeysRenew, hx, hl]
        | true => exact absurd hx h
      | str s => simp [secretAccessKeysRenew, hx, hl]
      | role r => simp [secretAccessKeysRenew, hx, hl]
      | other => simp [secretAccessKeysRenew, hx, hl]

/-- C6 witness: an STS-marked Secret is renewed as a no-op with an empty
event trace. -/
theorem c6_witness :
    secretAccessKeysRenew envOK
      { data := [], internalData := [("is_sts", .bool true)],
        TTL := 0, MaxTTL := 0, Renewable := false } = ⟨[], .noop⟩ :=
  (c6_renew_dispatch envOK
    { data := [], internalData := [("is_sts", .bool true)],
      TTL := 0, MaxTTL := 0, Renewable := false }).1 rfl

/-- C7 counterexample: a Secret carrying the malformed non-boolean is_sts
value is renewed successfully rather than with a terminal error, so the
claim that a malformed is_sts value causes a terminal error for both renew
and revoke is false. -/
theorem c7_counterexample :
    ¬ surfacedError (secretAccessKeysRenew envOK
        { data := [], internalData := [("is_sts", .str "maybe"), ("username", .str "u")],
          TTL := 0, MaxTTL := 0, Renewable := true }).result = true := by
  decide

/-- C7 amended: on revoke a present non-boolean is_sts value is a terminal
error, distinct from the missing-username error, while the absent key
falls through to the durable behavior; on renew a malformed is_sts value
is not an error and is processed exactly like the absent key, with the
default durable-user behavior. -/
theorem c7_malformed_is_sts (env : Env) (secret : SecretPart) (v : IValue) :
    ((lookupI "is_sts" secret.internalData = some v) → (∀ b, v ≠ .bool b) →
      secretAccessKeysRevoke env secret =
        ⟨[], .fatal (.msg "secret has is_sts but value could not be understood")⟩
      ∧ secretAccessKeysRenew env secret =
          (match env.lease with
           | .error e => ⟨[.leaseRead], .fatal (.msg e)⟩
           | .ok l =>
             ⟨[.leaseRead],
              .ok { secret with
                    TTL := (l.getD { Lease := 0, LeaseMax := 0 }).Lease,
                    MaxTTL := (l.getD { Lease := 0, LeaseMax := 0 }).LeaseMax }⟩))
    ∧ (lookupI "is_sts" secret.internalData = none →
      secretAccessKeysRevoke env secret = revokeUser env secret
      ∧ secretAccessKeysRenew env secret =
          (match env.lease with
           | .error e => ⟨[.leaseRead], .fatal (.msg e)⟩
           | .ok l =>
             ⟨[.leaseRead],
              .ok { secret with
                    TTL := (l.getD { Lease := 0, LeaseMax := 0 }).Lease,
                    MaxTTL := (l.getD { Lease := 0, LeaseMax := 0 }).LeaseMax }⟩))
    ∧ GoErr.msg "secret has is_sts but value could not be understood" ≠
        GoErr.msg "secret is missing username internal data" := by
  refine ⟨?_, ?_, by decide⟩
  · intro hv hb
    constructor
    · cases v with
      | bool b => exact absurd rfl (hb b)
      | str s => simp [secretAccessKeysRevoke, hv]
      | role r => simp [secretAccessKeysRevoke, hv]
      | other => simp [secretAccessKeysRevoke, hv]
    · cases v with
      | bool b => exact absurd rfl (hb b)
      | str s => simp [secretAccessKeysRenew, hv]
      | role r => simp [secretAccessKeysRenew, hv]
      | other => simp [secretAccessKeysRenew, hv]
  · intro hv
    constructor
    · simp [secretAccessKeysRevoke, hv]
    · simp [secretAccessKeysRenew, hv]

/-- C7 witness: on a Secret with a string-valued is_sts, revoke fails with
the could-not-be-understood error. -/
theorem c7_witness :
    secretAccessKeysRevoke envOK
      { data := [], internalData := [("is_sts", .str "maybe"), ("username", .str "u")],
        TTL := 0, MaxTTL := 0, Renewable := true } =
      ⟨[], .fatal (.msg "secret has is_sts but value could not be understood")⟩ :=
  ((c7_malformed_is_sts envOK
    { data := [], internalData := [("is_sts", .str "maybe"), ("username", .str "u")],
      TTL := 0, MaxTTL := 0, Renewable := true } (.str "maybe")).1 rfl
      (fun b h => by cases h)).1

/-- C8: a session-token request with a serial number but no token code
calls the provider with the serial number set and no MFA token code, and a
successfully returned credential is passed through as a Secret. -/
theorem c8_session_token_serial_without_code (env : Env) (serialNumber : String)
    (lifeTimeInSeconds : Int) (creds : Credentials)
    (hser : serialNumber ≠ "")
    (hsts : env.clientSTS = .ok ())
    (hcall : env.stsGetSessionToken
        ⟨lifeTimeInSeconds, some serialNumber, none⟩ = .ok creds) :
    getSessionToken env serialNumber "" lifeTimeInSeconds =
      ⟨[.clientSTS, .stsGetSessionToken ⟨lifeTimeInSeconds, some serialNumber, none⟩],
       .ok { data := [("access_key", .s creds.AccessKeyId),
                      ("secret_key", .s creds.SecretAccessKey),
                      ("session_token", .s creds.SessionToken),
                      ("ttl", .n (uint64Seconds (creds.Expiration - env.now)))],
             internalData := [("is_sts", .bool true)],
             TTL := creds.Expiration - env.now, MaxTTL := 0, Renewable := false }⟩ := by
  simp [getSessionToken, mkSessionTokenInput, hsts, hser, hcall, mkResponse]

/-- C8 witness: in the all-succeeding environment, a session-token request
with serial number mfa-serial and no code returns the provider credential
as a Secret. -/
theorem c8_witness :
    getSessionToken envOK "mfa-serial" "" 900 =
      ⟨[.clientSTS, .stsGetSessionToken ⟨900, some "mfa-serial", none⟩],
       .ok { data := [("access_key", .s "AKIAS"), ("secret_key", .s "SKS"),
                      ("session_token", .s "TOKS"),
                      ("ttl", .n (uint64Seconds 800))],
             internalData := [("is_sts", .bool true)],
             TTL := 800, MaxTTL := 0, Renewable := false }⟩ :=
  c8_session_token_serial_without_code envOK "mfa-serial" 900
    ⟨"AKIAS", "SKS", "TOKS", 900⟩ (by decide) rfl rfl

/-- Shape of every successful federation-token Secret: STS-marked,
non-renewable, TTL equal to the provider-reported expiration minus the
issuance time. -/
theorem fed_ok_shape (env : Env) (displayName policyName policy₀ : String)
    (policyARNs₀ iamGroups : List String) (lifeTimeInSeconds : Int) (r : SecretPart)
    (h : (getFederationToken env displayName policyName policy₀ policyARNs₀ iamGroups
            lifeTimeInSeconds).result = .ok r) :
    lookupI "is_sts" r.internalData = some (.bool true) ∧ r.Renewable = false ∧
    ∃ inp creds, env.stsGetFederationToken inp = .ok creds ∧
      r.TTL = creds.Expiration - env.now := by
  unfold getFederationToken at h
  repeat' split at h
  all_goals try simp_all
  split at h
  · simp at h
  · split at h
    · simp at h
    · simp at h
      subst h
      rename_i creds hcall
      exact ⟨rfl, rfl, _, creds, hcall, rfl⟩

/-- Shape of every successful session-token Secret: STS-marked,
non-renewable, TTL equal to the provider-reported expiration minus the
issuance time. -/
theorem session_ok_shape (env : Env) (serialNumber mfaCode : String)
    (lifeTimeInSeconds : Int) (r : SecretPart)
    (h : (getSessionToken env serialNumber mfaCode lifeTimeInSeconds).result = .ok r) :
    lookupI "is_sts" r.internalData = some (.bool true) ∧ r.Renewable = false ∧
    ∃ inp creds, env.stsGetSessionToken inp = .ok creds ∧
      r.TTL = creds.Expiration - env.now := by
  unfold getSessionToken at h
  split at h
  · simp at h
  · simp only [] at h
    split at h
    · simp at h
    · simp at h
      subst h
      rename_i creds hcall
      exact ⟨rfl, rfl, _, creds, hcall, rfl⟩

/-- Shape of every successful assumed-role Secret: STS-marked,
non-renewable, TTL equal to the provider-reported expiration minus the
issuance time. -/
theorem assume_ok_shape (env : Env) (displayName roleName roleArn policy₀ : String)
    (policyARNs₀ iamGroups : List String) (lifeTimeInSeconds : Int)
    (roleSessionName₀ : String) (r : SecretPart)
    (h : (assumeRole env displayName roleName roleArn policy₀ policyARNs₀ iamGroups
            lifeTimeInSeconds roleSessionName₀).result = .ok r) :
    lookupI "is_sts" r.internalData = some (.bool true) ∧ r.Renewable = false ∧
    ∃ inp creds arn, env.stsAssumeRole inp = .ok (creds, arn) ∧
      r.TTL = creds.Expiration - env.now := by
  unfold assumeRole at h
  repeat' split at h
  all_goals try simp_all
  all_goals split at h
  all_goals simp at h
  all_goals subst h
  all_goals rename_i creds arn hcall
  all_goals refine ⟨rfl, rfl, ?_⟩
  all_goals exact ⟨_, creds, ⟨arn, hcall⟩, rfl⟩

/-- Shape of every successful durable-user Secret: marked non-STS and its
TTLs are those of the effective lease configuration. -/
theorem create_ok_shape (env : Env) (displayName policyName : String) (role : RoleEntry)
    (r : SecretPart)
    (h : (secretAccessKeysCreate env displayName policyName role).result = .ok r) :
    lookupI "is_sts" r.internalData = some (.bool false) ∧ r.Renewable = true ∧
    r.TTL = (effLease env).Lease ∧ r.MaxTTL = (effLease env).LeaseMax := by
  unfold secretAccessKeysCreate at h
  repeat' split at h
  all_goals try simp_all
  all_goals try (repeat' split at h)
  all_goals try simp_all
  all_goals first
    | exact ⟨rfl, rfl, rfl, rfl⟩
    | (subst h; exact ⟨rfl, rfl, rfl, rfl⟩)

/-- C3: every Secret produced by the three ephemeral strategies carries
the internal is_sts true marker, has its renewable flag false and its TTL
equal to the provider-reported expiration minus the issuance time, while
every durable-user Secret carries is_sts false with TTL and max-TTL taken
from the effective lease configuration. -/
theorem c3_secret_shapes (env : Env) (displayName policyName roleName roleArn policy₀
    serialNumber mfaCode roleSessionName₀ : String) (policyARNs₀ iamGroups : List String)
    (lifeTimeInSeconds : Int) (role : RoleEntry) :
    (∀ r, (getFederationToken env displayName policyName policy₀ policyARNs₀ iamGroups
            lifeTimeInSeconds).result = .ok r →
      lookupI "is_sts" r.internalData = some (.bool true) ∧ r.Renewable = false ∧
      ∃ inp creds, env.stsGetFederationToken inp = .ok creds ∧
        r.TTL = creds.Expiration - env.now)
    ∧ (∀ r, (getSessionToken env serialNumber mfaCode lifeTimeInSeconds).result = .ok r →
      lookupI "is_sts" r.internalData = some (.bool true) ∧ r.Renewable = false ∧
      ∃ inp creds, env.stsGetSessionToken inp = .ok creds ∧
        r.TTL = creds.Expiration - env.now)
    ∧ (∀ r, (assumeRole env displayName roleName roleArn policy₀ policyARNs₀ iamGroups
            lifeTimeInSeconds roleSessionName₀).result = .ok r →
      lookupI "is_sts" r.internalData = some (.bool true) ∧ r.Renewable = false ∧
      ∃ inp creds arn, env.stsAssumeRole inp = .ok (creds, arn) ∧
        r.TTL = creds.Expiration - env.now)
    ∧ (∀ r, (secretAccessKeysCreate env displayName policyName role).result = .ok r →
      lookupI "is_sts" r.internalData = some (.bool false) ∧
      r.TTL = (effLease env).Lease ∧ r.MaxTTL = (effLease env).LeaseMax) :=
  ⟨fun r h => fed_ok_shape env displayName policyName policy₀ policyARNs₀ iamGroups
      lifeTimeInSeconds r h,
   fun r h => session_ok_shape env serialNumber mfaCode lifeTimeInSeconds r h,
   fun r h => assume_ok_shape env displayName roleName roleArn policy₀ policyARNs₀
      iamGroups lifeTimeInSeconds roleSessionName₀ r h,
   fun r h =>
     match create_ok_shape env displayName policyName role r h with
     | ⟨hsts, _, httl, hmax⟩ => ⟨hsts, httl, hmax⟩⟩

/-- Federation-token Secret produced in the all-succeeding environment,
used as the concrete C3 witness value. -/
def rFedW : SecretPart :=
  { data := [("access_key", .s "AKIAF"), ("secret_key", .s "SKF"),
             ("security_token", .s "TOKF"), ("session_token", .s "TOKF"),
             ("ttl", .n 800)],
    internalData := [("username", .str "STS-u"), ("policy", .str "p-doc"),
                     ("is_sts", .bool true)],
    TTL := 800, MaxTTL := 0, Renewable := false }

/-- C3 witness: in the all-succeeding environment the federation-token
Secret is STS-marked, non-renewable and carries the provider expiration
minus issuance time as TTL. -/
theorem c3_witness :
    lookupI "is_sts" rFedW.internalData = some (.bool true) ∧ rFedW.Renewable = false ∧
    ∃ inp creds, envOK.stsGetFederationToken inp = .ok creds ∧
      rFedW.TTL = creds.Expiration - envOK.now :=
  (c3_secret_shapes envOK "disp" "pol" "rn" "arn:role" "p-doc" "ser" "" "sess"
      [] [] 900 roleW).1 rFedW (by decide)

/-- C10: a durable-user issuance in which the lease read fails or finds no
configuration behaves exactly as if the zero-value lease were configured,
so it still succeeds and the returned Secret has TTL and max-TTL zero,
whereas renew aborts with the lease read error. -/
theorem c10_lease_error_swallowed_on_create (env : Env) (displayName policyName : String)
    (role : RoleEntry) (secret : SecretPart) :
    (((∃ e, env.lease = .error e) ∨ env.lease = .ok none) →
      secretAccessKeysCreate env displayName policyName role =
        secretAccessKeysCreate
          { env with lease := .ok (some { Lease := 0, LeaseMax := 0 }) }
          displayName policyName role)
    ∧ (((∃ e, env.lease = .error e) ∨ env.lease = .ok none) →
      ∀ r, (secretAccessKeysCreate env displayName policyName role).result = .ok r →
        r.TTL = 0 ∧ r.MaxTTL = 0)
    ∧ (∀ e, env.lease = .error e →
      lookupI "is_sts" secret.internalData ≠ some (.bool true) →
      secretAccessKeysRenew env secret = ⟨[.leaseRead], .fatal (.msg e)⟩) := by
  have hEff : ((∃ e, env.lease = .error e) ∨ env.lease = .ok none) →
      effLease env = { Lease := 0, LeaseMax := 0 } := by
    rintro (⟨e, he⟩ | he) <;> simp [effLease, he]
  refine ⟨?_, ?_, ?_⟩
  · intro h
    have h1 := hEff h
    have h2 : effLease { env with lease := .ok (some { Lease := 0, LeaseMax := 0 }) } =
        { Lease := 0, LeaseMax := 0 } := rfl
    simp only [secretAccessKeysCreate, provisionSteps, h1, h2]
  · intro h r hr
    have h1 := hEff h
    have := create_ok_shape env displayName policyName role r hr
    rw [h1] at this
    exact ⟨this.2.2.1, this.2.2.2⟩
  · intro e he hsts
    rcases hx : lookupI "is_sts" secret.internalData with _ | v
    · simp [secretAccessKeysRenew, hx, he]
    · cases v with
      | bool b =>
        cases b with
        | false => simp [secretAccessKeysRenew, hx, he]
        | true => exact absurd hx hsts
      | str s => simp [secretAccessKeysRenew, hx, he]
      | role r => simp [secretAccessKeysRenew, hx, he]
      | other => simp [secretAccessKeysRenew, hx, he]

/-- C10 witness: with a failing lease reader, renew of a durable Secret
aborts with that error. -/
theorem c10_witness :
    secretAccessKeysRenew { envOK with lease := .error "lease boom" }
      { data := [], internalData := [("is_sts", .bool false), ("username", .str "u")],
        TTL := 0, MaxTTL := 0, Renewable := true } =
      ⟨[.leaseRead], .fatal (.msg "lease boom")⟩ :=
  (c10_lease_error_swallowed_on_create { envOK with lease := .error "lease boom" }
      "disp" "pol" roleW
      { data := [], internalData := [("is_sts", .bool false), ("username", .str "u")],
        TTL := 0, MaxTTL := 0, Renewable := true }).2.2 "lease boom" rfl (by decide)

/-- A federation-token input built under a failed empty-policy guard has a
policy document or a policy ARN list set. -/
theorem mkFedTokenInput_not_both_none (username policy : String) (policyARNs : List String)
    (lifeTimeInSeconds : Int) (h : ¬(policy = "" ∧ policyARNs = [])) :
    (mkFedTokenInput username policy policyARNs lifeTimeInSeconds).Policy ≠ none ∨
    (mkFedTokenInput username policy policyARNs lifeTimeInSeconds).PolicyArns ≠ none := by
  by_cases hp : policy = ""
  · right
    have harns : policyARNs ≠ [] := fun he => h ⟨hp, he⟩
    simp [mkFedTokenInput, List.length_pos.2 harns]
  · left
    simp [mkFedTokenInput, hp]

/-- C2 counterexample: an assumed-role issuance with no policy document
and no policy ARNs after merging does not fail closed: the AssumeRole
provider call is made and the issuance succeeds, refuting the claim that
both federation-token and assumed-role issuance fail closed without
calling the provider. -/
theorem c2_counterexample :
    ¬ (surfacedError (assumeRole envOK "disp" "rn" "arn:role" "" [] [] 900 "sess").result
          = true
       ∧ (assumeRole envOK "disp" "rn" "arn:role" "" [] [] 900 "sess").events.any
            isAssumeCall = false) := by
  decide

/-- C2 amended: federation-token issuance never calls the provider with
neither a policy document nor a policy ARN, and under an empty merge it
fails closed with the must-specify error before any provider token call;
assumed-role issuance performs no such check and calls AssumeRole even
when the merged policy and ARN set are empty. -/
theorem c2_fail_closed_federation_only (env : Env)
    (displayName policyName roleName roleArn policy₀ roleSessionName₀ : String)
    (policyARNs₀ iamGroups : List String) (lifeTimeInSeconds : Int) :
    (∀ inp, Ev.stsGetFederationToken inp ∈
        (getFederationToken env displayName policyName policy₀ policyARNs₀ iamGroups
          lifeTimeInSeconds).events →
      inp.Policy ≠ none ∨ inp.PolicyArns ≠ none)
    ∧ (∀ gp gpARNs config username,
      env.getGroupPolicies iamGroups = .ok (gp, gpARNs) →
      mergedPolicyFed env gp policy₀ = .ok "" →
      mergedARNs policyARNs₀ gpARNs = [] →
      env.clientSTS = .ok () →
      readConfig env.storageGet = .ok config →
      genUsername env.engine displayName policyName "sts" (effTemplate config)
        = .ok username →
      getFederationToken env displayName policyName policy₀ policyARNs₀ iamGroups
          lifeTimeInSeconds =
        ⟨[.groupPoliciesRead iamGroups, .clientSTS],
         .respErr "must specify at least one of policy_arns or policy_document with federation_token credential_type"⟩)
    ∧ (∀ gp gpARNs config,
      env.getGroupPolicies iamGroups = .ok (gp, gpARNs) →
      mergedPolicyAssume env gp policy₀ = .ok "" →
      mergedARNs policyARNs₀ gpARNs = [] →
      env.clientSTS = .ok () →
      readConfig env.storageGet = .ok config →
      roleSessionName₀ ≠ "" →
      (assumeRole env displayName roleName roleArn policy₀ policyARNs₀ iamGroups
          lifeTimeInSeconds roleSessionName₀).events.any isAssumeCall = true) := by
  refine ⟨?_, ?_, ?_⟩
  · intro inp hmem
    unfold getFederationToken at hmem
    repeat' split at hmem
    all_goals try (solve | simp at hmem)
    try simp only [] at hmem
    split at hmem
    · simp at hmem
    · rename_i hguard
      split at hmem <;>
        (simp only [List.mem_cons, List.not_mem_nil, or_false] at hmem
         rcases hmem with hmem | hmem | hmem
         · exact Ev.noConfusion hmem
         · exact Ev.noConfusion hmem
         · injection hmem with h
           subst h
           exact mkFedTokenInput_not_both_none _ _ _ _ hguard)
  · intro gp gpARNs config username hgp hmp harns hsts hcfg hgen
    simp [getFederationToken, hgp, hmp, harns, hsts, hcfg, hgen]
  · intro gp gpARNs config hgp hmp harns hsts hcfg hname
    simp [assumeRole, hgp, hmp, harns, hsts, hcfg, hname, isAssumeCall]
    split <;> simp [isAssumeCall]

/-- C2 witness: a federation-token request with no policy document and no
ARNs fails closed with the must-specify error and an event trace without
any provider token call. -/
theorem c2_witness :
    getFederationToken envOK "disp" "pol" "" [] [] 900 =
      ⟨[.groupPoliciesRead [], .clientSTS],
       .respErr "must specify at least one of policy_arns or policy_document with federation_token credential_type"⟩ :=
  (c2_fail_closed_federation_only envOK "disp" "pol" "rn" "arn:role" "" "sess" [] [] 900).2.1
    none [] { UsernameTemplate := "" } "STS-u" rfl rfl rfl rfl rfl rfl

/-- Environment in which only the CreateUser provider call fails, used by
the C1 counterexample. -/
def envCreateFail : Env :=
  { envOK with createUser := fun _ => .error "denied" }

/-- C1 counterexample: when principal creation fails and the WAL entry is
deleted as the claim itself prescribes, the issuance ends with the WAL
entry absent and a surfaced error at the same time, so the claimed
exactly-one-of disjunction is false. -/
theorem c1_counterexample :
    ¬ ((((secretAccessKeysCreate envCreateFail "disp" "pol" roleW).walPending = false) ∧
        ¬ surfacedError (secretAccessKeysCreate envCreateFail "disp" "pol" roleW).result
            = true) ∨
       (¬ ((secretAccessKeysCreate envCreateFail "disp" "pol" roleW).walPending = false) ∧
        surfacedError (secretAccessKeysCreate envCreateFail "disp" "pol" roleW).result
            = true)) := by
  decide

/-- C1 amended: for every durable-user issuance the WAL entry is written
before any external mutating call; a Secret is returned only with the WAL
entry deleted; a WAL entry still pending at the end implies a surfaced
error; when principal creation fails the WAL entry is deleted at once and
the creation error returned, wrapped with the deletion error if deletion
also fails; and when a later provisioning step fails its error is surfaced
with the WAL entry deliberately left pending — so at the end at least one
of WAL-entry-absent or surfaced-error holds, never success with a dangling
WAL entry. -/
theorem c1_wal_discipline (env : Env) (displayName policyName : String) (role : RoleEntry) :
    walBeforeMutations (secretAccessKeysCreate env displayName policyName role).events = true
    ∧ (∀ r, (secretAccessKeysCreate env displayName policyName role).result = .ok r →
        (secretAccessKeysCreate env displayName policyName role).walPending = false)
    ∧ ((secretAccessKeysCreate env displayName policyName role).walPending = true →
        surfacedError (secretAccessKeysCreate env displayName policyName role).result = true)
    ∧ (∀ config username walID e,
        env.clientIAM = .ok () →
        readConfig env.storageGet = .ok config →
        genUsername env.engine displayName policyName "iam_user" (effTemplate config)
          = .ok username →
        env.putWAL username = .ok walID →
        env.createUser (mkCreateUserInput username role) = .error e →
        (env.deleteWAL walID = .ok () →
          secretAccessKeysCreate env displayName policyName role =
            ⟨[.clientIAM, .putWAL username, .createUser (mkCreateUserInput username role),
              .deleteWAL walID], false, .respErrAws ("Error creating IAM user: " ++ e) e⟩)
        ∧ (∀ we, env.deleteWAL walID = .error we →
          secretAccessKeysCreate env displayName policyName role =
            ⟨[.clientIAM, .putWAL username, .createUser (mkCreateUserInput username role),
              .deleteWAL walID], true,
             .fatal (.wrapPair (.wrapf "failed to delete WAL entry" (.msg we))
                               (.wrapf "error creating IAM user" (.msg e)))⟩))
    ∧ (∀ config username walID pevs m raw,
        env.clientIAM = .ok () →
        readConfig env.storageGet = .ok config →
        genUsername env.engine displayName policyName "iam_user" (effTemplate config)
          = .ok username →
        env.putWAL username = .ok walID →
        env.createUser (mkCreateUserInput username role) = .ok () →
        provisionSteps env username policyName role = (pevs, .error (m, raw)) →
        secretAccessKeysCreate env displayName policyName role =
          ⟨[.clientIAM, .putWAL username, .createUser (mkCreateUserInput username role)]
             ++ pevs,
           true, .respErrAws m raw⟩) := by
  refine ⟨?_, ?_, ?_, ?_, ?_⟩
  · unfold secretAccessKeysCreate
    repeat' split
    all_goals try simp [walBeforeMutations, mutating]
    all_goals try (repeat' split)
    all_goals simp [walBeforeMutations, mutating]
  · intro r
    unfold secretAccessKeysCreate
    repeat' split
    all_goals try simp
    all_goals try (repeat' split)
    all_goals simp
  · unfold secretAccessKeysCreate
    repeat' split
    all_goals try simp [surfacedError]
    all_goals try (repeat' split)
    all_goals try simp [surfacedError]
    all_goals simp_all
  · intro config username walID e hclient hcfg hgen hwal hcr
    refine ⟨fun hdel => ?_, fun we hdel => ?_⟩ <;>
      simp [secretAccessKeysCreate, hclient, hcfg, hgen, hwal, hcr, hdel]
  · intro config username walID pevs m raw hclient hcfg hgen hwal hcr hprov
    simp [secretAccessKeysCreate, hclient, hcfg, hgen, hwal, hcr, hprov]

/-- C1 witness: in the all-succeeding environment the issuance returns a
Secret and the WAL entry is no longer pending. -/
theorem c1_witness :
    (secretAccessKeysCreate envOK "disp" "pol" roleW).walPending = false :=
  (c1_wal_discipline envOK "disp" "pol" roleW).2.1
    { data := [("access_key", .s "AKIA-IAM-u"), ("secret_key", .s "SK"),
               ("session_token", .null)],
      internalData := [("username", .str "IAM-u"), ("policy", .role roleW),
                       ("is_sts", .bool false)],
      TTL := 3600, MaxTTL := 7200, Renewable := true }
    (by decide)

end AWSSecret
